import Mathlib

/-!
Verification of the parser_mass ingestion pipeline.

Shallow embedding of the Python sources:
  app/tagging.py            (tag matching)
  app/sheets.py             (TTL-cached reference-data loader)
  app/services/parser.py    (orchestrator, per-platform target selection, upsert SQL)
  app/parser_instagram.py   (Instagram paginating client)
  app/parser_tiktok.py      (TikTok paginating client)
  app/parser_youtube.py     (YouTube upsert SQL)
  app/core/utils.py         (tenacity retry policy)

Network fetches are modelled by scripted outcome lists consumed one call at a
time; the Postgres video_stats table is modelled as a list of rows with the
per-platform ON CONFLICT key; asyncio concurrency is modelled by passing each
coroutine outcome as an explicit value.
-/

namespace ParserMass

/-- Python truthiness of an optional string: None and the empty string are falsy. -/
def strTruthy : Option String → Bool
  | none => false
  | some s => !(s == "")

/-- Python expression a or b on optional strings: first operand if truthy, else second. -/
def pyOrS (a b : Option String) : Option String :=
  if strTruthy a then a else b

/-- Python truthiness of an optional integer: None and 0 are falsy. -/
def intTruthy : Option Int → Bool
  | none => false
  | some n => !(n == 0)

/-- Python lower() restricted to the alphabet that survives the pipeline's
normalisers: ASCII A-Z and the Cyrillic range А-Я each map down by 0x20;
everything else is unchanged. -/
def pyLower (c : Char) : Char :=
  if 'A' ≤ c ∧ c ≤ 'Z' then Char.ofNat (c.toNat + 32)
  else if 'А' ≤ c ∧ c ≤ 'Я' then Char.ofNat (c.toNat + 32)
  else c

/-- Python str.lower() over the modelled alphabet. -/
def pyLowerStr (s : String) : String :=
  String.mk (s.toList.map pyLower)

/-- Python str.casefold(): on the alphabet the pipeline feeds it (ASCII and
non-special Cyrillic identifiers) casefold coincides with lower. -/
def pyCasefold (s : String) : String :=
  pyLowerStr s

/-- The whitespace set str.strip() removes (ASCII part). -/
def isPySpace (c : Char) : Bool :=
  c = ' ' ∨ c = '\t' ∨ c = '\n' ∨ c = '\r' ∨ c = '\x0b' ∨ c = '\x0c'

/-- Python str.strip(). -/
def pyStrip (s : String) : String :=
  String.mk (((s.toList.dropWhile isPySpace).reverse.dropWhile isPySpace).reverse)

/-- Value of a digit run, none on the first non-digit. -/
def digitsVal : List Char → Nat → Option Nat
  | [], acc => some acc
  | c :: cs, acc =>
      if '0' ≤ c ∧ c ≤ '9' then digitsVal cs (acc * 10 + (c.toNat - 48))
      else none

/-- Python int(str) over an already-stripped literal: an optional sign
followed by a non-empty digit run; anything else raises ValueError, here
none. (Underscore digit separators are not modelled.) -/
def pyInt (s : String) : Option Int :=
  match s.toList with
  | [] => none
  | c :: rest =>
      if c = '-' then
        match rest with
        | [] => none
        | _ => (digitsVal rest 0).map (fun n => -(n : Int))
      else if c = '+' then
        match rest with
        | [] => none
        | _ => (digitsVal rest 0).map (fun n => (n : Int))
      else (digitsVal (c :: rest) 0).map (fun n => (n : Int))

namespace Tagging

/-- One tag rule as produced by the tags sheet mapper: the Python dicts
t.get("tag") / t.get("company") / t.get("product"), each possibly absent. -/
structure TagRule where
  tag : Option String
  company : Option String
  product : Option String
deriving DecidableEq, Repr

/-- Characters kept by normalize_text's first substitution,
re.sub of the class complement [^a-zA-Z0-9а-яА-Я#] with a space. -/
def isKeptChar (c : Char) : Bool :=
  ('a' ≤ c ∧ c ≤ 'z') ∨ ('A' ≤ c ∧ c ≤ 'Z') ∨ ('0' ≤ c ∧ c ≤ '9')
    ∨ ('а' ≤ c ∧ c ≤ 'я') ∨ ('А' ≤ c ∧ c ≤ 'Я') ∨ c = '#'

/-- re.sub of a whitespace run with a single space. After the first
substitution the only whitespace character left is the space itself. -/
def collapseWs : List Char → List Char
  | [] => []
  | [c] => [c]
  | a :: b :: rest =>
      if a = ' ' ∧ b = ' ' then collapseWs (b :: rest)
      else a :: collapseWs (b :: rest)

/-- app/tagging.py normalize_text: strip, replace every character outside
letters/digits/number-sign with a space, collapse whitespace, lowercase.
The argument is optional, mirroring text or the empty string. -/
def normalize_text (text : Option String) : String :=
  let s0 := pyStrip (text.getD "")
  let s1 := s0.toList.map (fun c => if isKeptChar c then c else ' ')
  String.mk ((collapseWs s1).map pyLower)

/-- The per-rule tag preparation (tag_raw or "").strip().lower(). -/
def cleanTag (t : TagRule) : String :=
  pyLowerStr (pyStrip (t.tag.getD ""))

/-- List-level check that the first list heads the second. -/
def headsList : List Char → List Char → Bool
  | [], _ => true
  | _ :: _, [] => false
  | a :: as, b :: bs => a == b && headsList as bs

/-- Contiguous-occurrence check of the first list inside the second. -/
def occursIn (needle : List Char) : List Char → Bool
  | [] => needle.isEmpty
  | c :: rest => headsList needle (c :: rest) || occursIn needle rest

/-- The regex search of pattern #?[a-z0-9_-]*E[a-z0-9_-]* where E is the
escaped tag: every surrounding piece is optional and may match empty, so the
search succeeds exactly when the (already lowercased) tag occurs as a
substring of the (already lowercased) normalised text. -/
def rule_matches (cleanText tag : String) : Bool :=
  occursIn tag.toList cleanText.toList

/-- Python-truthy projection of an optional field: non-empty strings pass. -/
def optTruthy : Option String → Option String
  | none => none
  | some s => if s = "" then none else some s

/-- The for-loop of match_tags, accumulating matched tags, companies and
products in ruleset order (cons-recursion represents the in-order appends;
the source computes the cleaned tag once per rule, repeated here verbatim). -/
def matchLoop (clean : String) : List TagRule → List String × List String × List String
  | [] => ([], [], [])
  | t :: rest =>
      if cleanTag t = "" then matchLoop clean rest
      else if rule_matches clean (cleanTag t) then
        (("#" ++ cleanTag t) :: (matchLoop clean rest).1,
          (optTruthy t.company).toList ++ (matchLoop clean rest).2.1,
          (optTruthy t.product).toList ++ (matchLoop clean rest).2.2)
      else matchLoop clean rest

/-- app/tagging.py match_tags: returns (client_tag, company, product,
matched_tags_list); client_tag is the comma-join of the matched tags or None,
company and product are the heads of the matched non-empty values. -/
def match_tags (text : Option String) (tags : List TagRule) :
    Option String × Option String × Option String × List String :=
  let clean := normalize_text text
  let r := matchLoop clean tags
  (if r.1 = [] then none else some (String.intercalate ", " r.1),
    r.2.1.head?, r.2.2.head?, r.1)

/-- Specification-side view: the sublist of rules whose cleaned tag is
non-empty and occurs in the normalised text. -/
def matchingRules (clean : String) (tags : List TagRule) : List TagRule :=
  tags.filter (fun t => !(cleanTag t == "") && rule_matches clean (cleanTag t))

end Tagging

namespace Sheets

/-- A raw CSV row: the dict produced by csv.DictReader, keys to cell text. -/
def Row := List (String × String)

/-- dict lookup row.get(k). -/
def rowGet (r : Row) (k : String) : Option String :=
  (r.find? (fun p => p.1 == k)).map (fun p => p.2)

/-- Python first-truthy chain a or b or ... or None over string lookups. -/
def firstTruthy : List (Option String) → Option String
  | [] => none
  | o :: rest => if strTruthy o then o else firstTruthy rest

/-- app/sheets.py _normalize_text: NFKC-normalise (identity on the modelled
alphabet), drop zero-width spaces, strip, optionally lowercase. -/
def normText (v : Option String) (toLowerFlag : Bool) : String :=
  let s := pyStrip (String.mk ((v.getD "").toList.filter (fun c => !(c = '\u200B'))))
  if toLowerFlag then pyLowerStr s else s

/-- app/sheets.py _normalize_key: lowercased normalised text with spaces
replaced by underscores. -/
def normKey (v : String) : String :=
  String.mk ((normText (some v) true).toList.map
    (fun c => if c = ' ' then '_' else c))

/-- The row pre-normalisation in _load_generic: keep non-empty keys and
normalise each key. -/
def normalizeRowKeys (r : Row) : Row :=
  (r.filter (fun p => !(p.1 == ""))).map (fun p => (normKey p.1, p.2))

/-- A mapper result: the cleaned item and the optional _dedup_key it carries. -/
structure MapRes (α : Type) where
  item : α
  dedupKey : Option String

/-- The dedup loop of _load_generic over already key-normalised rows: a row
whose mapper yields nothing (falsy item or mapper exception) is skipped; an
item with a truthy _dedup_key is dropped when its key was already seen,
keep-first, and otherwise records the key. -/
def dedupLoop (mapper : Row → Option (MapRes α)) :
    List Row → List String → List α
  | [], _ => []
  | r :: rest, seen =>
      match mapper r with
      | none => dedupLoop mapper rest seen
      | some mr =>
          match mr.dedupKey with
          | some k =>
              if k = "" then mr.item :: dedupLoop mapper rest seen
              else if k ∈ seen then dedupLoop mapper rest seen
              else mr.item :: dedupLoop mapper rest (k :: seen)
          | none => mr.item :: dedupLoop mapper rest seen

/-- Process-wide cache state: _cache (absent key modelled as none) and
_cache_timestamps (absent key reads as 0, mirroring .get(key, 0.0)). -/
structure SheetCache (α : Type) where
  cache : String → Option (List α)
  stamps : String → Nat

/-- Pointwise update of a string-keyed map. -/
def upd (f : String → β) (k : String) (v : β) : String → β :=
  fun x => if x = k then v else f x

/-- REFRESH_INTERVAL_SECONDS = 60 * 60. -/
def refreshIntervalSeconds : Nat := 60 * 60

/-- app/sheets.py _load_generic. The CSV fetch is an explicit outcome: on a
raised fetch error the function logs and returns the empty list leaving the
cache untouched; a missing URL stores an empty dataset; a successful fetch
key-normalises the rows, runs the mapper/dedup loop and replaces the cache
entry wholesale. -/
def load_generic (key : String) (hasUrl : Bool)
    (fetched : Except String (List Row)) (mapper : Row → Option (MapRes α))
    (st : SheetCache α) (now : Nat) : List α × SheetCache α :=
  if !hasUrl then
    ([], ⟨upd st.cache key (some []), upd st.stamps key now⟩)
  else
    match fetched with
    | .error _ => ([], st)
    | .ok rows =>
        let clean := dedupLoop mapper (rows.map normalizeRowKeys) []
        (clean, ⟨upd st.cache key (some clean), upd st.stamps key now⟩)

/-- app/sheets.py _get_cached_or_fetch. The double staleness check inside the
lock re-reads the same state in this sequential model, so it collapses to one
check; the returned value is always list(_cache.get(key, [])) over the
post-load state. -/
def get_cached_or_fetch (key : String) (hasUrl : Bool)
    (fetched : Except String (List Row)) (mapper : Row → Option (MapRes α))
    (st : SheetCache α) (now : Nat) (force : Bool) : List α × SheetCache α :=
  let lastUpdate := st.stamps key
  if force || (st.cache key).isNone || decide (now - lastUpdate > refreshIntervalSeconds) then
    let r := load_generic key hasUrl fetched mapper st now
    ((r.2.cache key).getD [], r.2)
  else
    ((st.cache key).getD [], st)

/-- One tracked Instagram account record produced by _map_account. -/
structure Account where
  username : String
  amount : Int
deriving DecidableEq, Repr

/-- app/sheets.py _map_account: first-truthy identifier column, normalised;
rows with an empty identifier are dropped; the amount column parses as an
int with ValueError falling back to 0, then clamps at 0; the dedup key is the
casefolded username. -/
def map_account (row : Row) : Option (MapRes Account) :=
  let username := normText (firstTruthy
    [rowGet row "usernames", rowGet row "username", rowGet row "account",
      rowGet row "логин"]) false
  if username = "" then none
  else
    let amountRaw := (firstTruthy
      [rowGet row "видео", rowGet row "video", rowGet row "amount",
        rowGet row "количество_видео"]).getD ""
    let amountTxt := normText (some amountRaw) true
    let amount := (pyInt (if amountTxt = "" then "0" else amountTxt)).getD 0
    some ⟨⟨username, max amount 0⟩, some (pyCasefold username)⟩

/-- The accounts dataset produced by one successful load: _load_generic's
row pipeline specialised to _map_account. -/
def loadAccounts (rows : List Row) : List Account :=
  dedupLoop map_account (rows.map normalizeRowKeys) []

/-- Specification-side keep-first deduplication by a key function: an item
whose key has appeared before is dropped, the first occurrence stays. -/
def keepFirstBy (keyOf : α → String) : List α → List String → List α
  | [], _ => []
  | x :: rest, seen =>
      if keyOf x ∈ seen then keepFirstBy keyOf rest seen
      else x :: keepFirstBy keyOf rest (keyOf x :: seen)

end Sheets

namespace Store

/-- One row of the video_stats table (the 14 explicit columns plus the two
NOW() timestamps; the serial id plays no role in conflict resolution). -/
structure VideoRow where
  platform : String
  account : String
  video_id : String
  video_url : String
  publish_date : Int
  iso_year : Int
  week : Int
  likes : Int
  views : Int
  comments : Int
  caption : String
  client_tag : Option String
  company : Option String
  product : Option String
  created_at : Nat
  updated_at : Nat
deriving DecidableEq, Repr

/-- The DO UPDATE SET list shared by the Instagram writer
(app/services/parser.py, ON CONFLICT (video_id)): account, video_url, the
three counters, caption, the classification columns and updated_at = NOW(). -/
def igConflictUpdate (old new : VideoRow) (now : Nat) : VideoRow :=
  { old with
    account := new.account, video_url := new.video_url,
    likes := new.likes, views := new.views, comments := new.comments,
    caption := new.caption, client_tag := new.client_tag,
    company := new.company, product := new.product, updated_at := now }

/-- The DO UPDATE SET list of the TikTok writer (app/parser_tiktok.py,
ON CONFLICT (video_id)): identical column list to the Instagram writer. -/
def tiktokConflictUpdate (old new : VideoRow) (now : Nat) : VideoRow :=
  { old with
    account := new.account, video_url := new.video_url,
    likes := new.likes, views := new.views, comments := new.comments,
    caption := new.caption, client_tag := new.client_tag,
    company := new.company, product := new.product, updated_at := now }

/-- The DO UPDATE SET list of the YouTube writer (app/parser_youtube.py,
ON CONFLICT (video_url)): as above but without video_url, which is the
conflict key there. -/
def ytConflictUpdate (old new : VideoRow) (now : Nat) : VideoRow :=
  { old with
    account := new.account,
    likes := new.likes, views := new.views, comments := new.comments,
    caption := new.caption, client_tag := new.client_tag,
    company := new.company, product := new.product, updated_at := now }

/-- INSERT ... ON CONFLICT (key) DO UPDATE over the modelled table: when a row
with the incoming row's key exists it is updated in place by the given SET
list, otherwise the row is appended with created_at = updated_at = NOW(). -/
def upsertVideo (key : VideoRow → String)
    (update : VideoRow → VideoRow → Nat → VideoRow)
    (r : VideoRow) (now : Nat) (tbl : List VideoRow) : List VideoRow :=
  if tbl.any (fun x => key x == key r) then
    tbl.map (fun x => if key x == key r then update x r now else x)
  else
    tbl ++ [{ r with created_at := now, updated_at := now }]

/-- The Instagram writer: conflict key video_id. -/
def upsert_instagram (r : VideoRow) (now : Nat) (tbl : List VideoRow) : List VideoRow :=
  upsertVideo (fun x => x.video_id) igConflictUpdate r now tbl

/-- The TikTok writer: conflict key video_id. -/
def upsert_tiktok (r : VideoRow) (now : Nat) (tbl : List VideoRow) : List VideoRow :=
  upsertVideo (fun x => x.video_id) tiktokConflictUpdate r now tbl

/-- The YouTube writer: conflict key video_url. -/
def upsert_youtube (r : VideoRow) (now : Nat) (tbl : List VideoRow) : List VideoRow :=
  upsertVideo (fun x => x.video_url) ytConflictUpdate r now tbl

end Store

namespace Orch

/-- One failure dict as appended to failed_list or to the per-platform error
bucket: a small JSON object, field name to value. -/
def FailEntry := List (String × String)
deriving DecidableEq

/-- The outcome of one platform coroutine as seen after asyncio.gather with
return_exceptions=True: either the (total_accounts, new_videos, failed_list)
it returned, or the exception it raised. The fourth component the YouTube and
TikTok helpers return is always the empty list and is dropped here. -/
inductive POutcome where
  | ok (accounts newVideos : Nat) (failures : List FailEntry)
  | exn (msg : String)
deriving DecidableEq

/-- The parse_runs row parse_all inserts (timestamps omitted): status,
total_accounts, new_videos, errors, and the failed section of accounts_json
keyed by platform, containing only platforms with a non-empty bucket. -/
structure RunRecord where
  status : String
  total_accounts : Nat
  new_videos : Nat
  errors : Nat
  failed : List (String × List FailEntry)
deriving DecidableEq

/-- Per-platform contribution to the aggregation loop of parse_all: an
exception counts one error and one error-entry bucket; a normal result
contributes its counters and its failure list (the code guards the extend
with a non-emptiness test, which changes nothing for an empty list). -/
def outcomeContribution : POutcome → Nat × Nat × Nat × List FailEntry
  | .exn m => (0, 0, 1, [[("error", m)]])
  | .ok a n fs => (a, n, fs.length, fs)

/-- The result-aggregation and run-record construction of parse_all
(app/services/parser.py lines 294-364): sums counters over the platforms in
order instagram, youtube, tiktok; keeps only non-empty failure buckets;
status is success when the error total is zero, otherwise partial. -/
def parse_all_aggregate (ig yt tt : POutcome) : RunRecord :=
  let ci := outcomeContribution ig
  let cy := outcomeContribution yt
  let ct := outcomeContribution tt
  let totalErr := ci.2.2.1 + cy.2.2.1 + ct.2.2.1
  let failedSummary :=
    (if ci.2.2.2 ≠ [] then [("instagram", ci.2.2.2)] else [])
      ++ (if cy.2.2.2 ≠ [] then [("youtube", cy.2.2.2)] else [])
      ++ (if ct.2.2.2 ≠ [] then [("tiktok", ct.2.2.2)] else [])
  { status := if totalErr = 0 then "success" else "partial",
    total_accounts := ci.1 + cy.1 + ct.1,
    new_videos := ci.2.1 + cy.2.1 + ct.2.1,
    errors := totalErr,
    failed := failedSummary }

end Orch

namespace Retry

/-- A failed upstream call: a non-200 HTTP response raised as
aiohttp.ClientResponseError (carrying the status), a connection error, a
timeout, or any other exception. -/
inductive UpErr where
  | httpStatus (status : Nat)
  | connErr
  | timeoutErr
  | otherErr (msg : String)
deriving DecidableEq, Repr

/-- The tenacity predicate retry_if_exception_type((ClientError,
asyncio.TimeoutError)) in app/core/utils.py: purely type-based.
ClientResponseError is a ClientError subclass, so every raised HTTP status,
403 and 404 included, satisfies it. -/
def is_retryable : UpErr → Bool
  | .httpStatus _ => true
  | .connErr => true
  | .timeoutErr => true
  | .otherErr _ => false

/-- The tenacity retry loop with stop_after_attempt and reraise=True over a
script of per-attempt outcomes: a success returns, a non-retryable error or
the final allowed attempt re-raises the original error, anything else takes
one more attempt. An exhausted script stands for an execution the model does
not continue. -/
def retry_call (n : Nat) : List (Except UpErr α) → Except UpErr α
  | [] => .error (.otherErr "no scripted outcome")
  | o :: rest =>
      match o with
      | .ok a => .ok a
      | .error e =>
          if n ≤ 1 then .error e
          else if is_retryable e then retry_call (n - 1) rest
          else .error e

/-- api_retry = create_retry_decorator() with max_attempts = 3 (the
exponential backoff between attempts, base 2s cap 30s, does not affect
results and is not modelled). -/
def api_retry (script : List (Except UpErr α)) : Except UpErr α :=
  retry_call 3 script

end Retry

namespace Tiktok

open Retry

/-- The parsed JSON of one TikTok page (object shape; a list-shaped body
would raise on data.get before the isinstance fallback and end pagination
through the generic except, a path no claim exercises). The item type is a
parameter: the fetch loop never inspects individual videos. -/
structure TtData (v : Type) where
  aweme_list : Option (List v)
  videos : Option (List v)
  has_more : Bool
  max_cursor : Option String
deriving DecidableEq

/-- page_videos = data.get("aweme_list") or data.get("videos") or []:
first truthy (non-empty) list, else empty. -/
def pageVideos (d : TtData v) : List v :=
  match d.aweme_list with
  | some l => if l.isEmpty then (d.videos.getD []) else l
  | none => d.videos.getD []

/-- The while-loop cursor stop test: not has_more, or a falsy cursor (None or
the empty string), or the literal zero cursor. -/
def cursorStops (d : TtData v) : Bool :=
  !d.has_more || d.max_cursor == none || d.max_cursor == some ""
    || d.max_cursor == some "0"

/-- The pagination loop of fetch_tiktok_videos (app/parser_tiktok.py): each
iteration runs one api_retry-wrapped page fetch from the script; a 404
surfacing after the retry budget marks the profile not-found and stops, any
other surfaced error stops without the mark, an empty page or a stopping
cursor ends pagination, and items accumulate until the amount is reached. -/
def ttLoop (amount : Nat) (script : List (List (Except UpErr (TtData v))))
    (acc : List v) : List v × Bool :=
  if amount ≤ acc.length then (acc, false)
  else
    match script with
    | [] => (acc, false)
    | attempts :: rest =>
        match api_retry attempts with
        | .error (.httpStatus 404) => (acc, true)
        | .error _ => (acc, false)
        | .ok d =>
            let page := pageVideos d
            if page.isEmpty then (acc, false)
            else
              let acc2 := acc ++ page
              if cursorStops d then (acc2, false)
              else ttLoop amount rest acc2

/-- app/parser_tiktok.py fetch_tiktok_videos: returns
(all_videos[:amount], is_not_found). -/
def fetch_tiktok_videos (amount : Nat)
    (script : List (List (Except UpErr (TtData v)))) : List v × Bool :=
  let r := ttLoop amount script []
  (r.1.take amount, r.2)

end Tiktok

namespace Insta

/-- The caption field of a raw Instagram item: a JSON object with text and
created-at fields, or absent/null. (A bare-string caption together with a
falsy taken_at would raise AttributeError in the source before any record is
built; that shape is outside the model.) -/
inductive PyCaption where
  | dict (text : Option String) (createdAtUtc createdAt : Option Int)
  | absent
deriving DecidableEq

/-- One raw item of data.items, with the defensively-read fields. -/
structure IgRawItem where
  taken_at : Option Int
  caption : PyCaption
  caption_text : Option String
  permalink : Option String
  code : Option String
  shortcode : Option String
  itemId : Option String
  pk : Option String
  like_count : Option Int
  play_count : Option Int
  view_count : Option Int
  comment_count : Option Int
deriving DecidableEq

/-- One normalised Instagram record as appended to the out list. The source
derives publish_date and the ISO year/week from this epoch through
datetime.utcfromtimestamp/isocalendar; no claim depends on the calendar
arithmetic, so the record keeps the epoch itself. -/
structure IgRecord where
  platform : String
  account : String
  video_id : String
  video_url : Option String
  publishEpoch : Int
  likes : Int
  views : Int
  comments : Int
  caption : String
deriving DecidableEq, Repr

/-- taken_at or caption.created_at_utc or caption.created_at, numeric check,
with datetime.utcnow() as the fallback epoch. -/
def igTaken (m : IgRawItem) (now : Int) : Int :=
  if intTruthy m.taken_at then m.taken_at.getD 0
  else
    match m.caption with
    | .dict _ cu ca =>
        if intTruthy cu then cu.getD 0
        else
          match ca with
          | some n => n
          | none => now
    | .absent => now

/-- str(m.get("id") or m.get("pk") or ""). -/
def igVideoId (m : IgRawItem) : String :=
  if strTruthy m.itemId then m.itemId.getD ""
  else if strTruthy m.pk then m.pk.getD "" else ""

/-- permalink or the reel URL built from shortcode = code or shortcode,
else None. -/
def igVideoUrl (m : IgRawItem) : Option String :=
  let shortcode := pyOrS m.code m.shortcode
  if strTruthy m.permalink then m.permalink
  else if strTruthy shortcode then
    some ("https://www.instagram.com/reel/" ++ shortcode.getD "" ++ "/")
  else none

/-- int(x or 0) over an optional numeric field. -/
def pyIntOrZero (a : Option Int) : Int :=
  if intTruthy a then a.getD 0 else 0

/-- int(m.get("play_count") or m.get("view_count") or 0). -/
def igViews (m : IgRawItem) : Int :=
  if intTruthy m.play_count then m.play_count.getD 0 else pyIntOrZero m.view_count

/-- The caption text: caption.text when caption is a dict, otherwise
caption_text, with the empty string as final fallback. -/
def igCaptionText (m : IgRawItem) : String :=
  match m.caption with
  | .dict t _ _ => if strTruthy t then t.getD "" else ""
  | .absent => if strTruthy m.caption_text then m.caption_text.getD "" else ""

/-- The record appended to out for one raw item. -/
def igBuildRecord (username : String) (now : Int) (m : IgRawItem) : IgRecord :=
  { platform := "instagram", account := username,
    video_id := igVideoId m, video_url := igVideoUrl m,
    publishEpoch := igTaken m now,
    likes := pyIntOrZero m.like_count, views := igViews m,
    comments := pyIntOrZero m.comment_count, caption := igCaptionText m }

/-- One _fetch_page call outcome: the parsed pagination_token and data.items
of a 200 response, or the formatted error surfacing after api_retry. -/
inductive IgFetchOutcome where
  | ok (token : Option String) (items : List IgRawItem)
  | fail (reason : String)
deriving DecidableEq

/-- The pagination loop of fetch_instagram_videos (app/parser_instagram.py),
consuming scripted fetch outcomes; returns (out, pagination_failed,
last_error, unconsumed script). A raised page fetch stops with
pagination_failed set and the accumulated records kept. A truthy token paired
with an empty item list triggers exactly one extra fetch of the same page:
a failed extra fetch only records last_error and ends pagination, recovered
items are processed normally — the loop keeps the original token, which the
retried response does not replace. An empty page or a falsy token ends
pagination normally. An empty-dict 200 body parses as (none, []) and ends
pagination through the same empty-page break. -/
def igLoop (u : String) (now : Int) :
    List IgFetchOutcome → List IgRecord → Option String →
      List IgRecord × Bool × Option String × List IgFetchOutcome
  | [], acc, lastErr => (acc, false, lastErr, [])
  | .fail r :: rest, acc, _ => (acc, true, some r, rest)
  | .ok token items :: rest, acc, lastErr =>
      if strTruthy token && items.isEmpty then
        match rest with
        | [] => (acc, false, lastErr, [])
        | .fail r2 :: rest2 => (acc, false, some r2, rest2)
        | .ok _tok2 items2 :: rest2 =>
            if items2.isEmpty then (acc, false, lastErr, rest2)
            else
              let acc2 := acc ++ items2.map (igBuildRecord u now)
              if strTruthy token then igLoop u now rest2 acc2 lastErr
              else (acc2, false, lastErr, rest2)
      else if items.isEmpty then (acc, false, lastErr, rest)
      else
        let acc2 := acc ++ items.map (igBuildRecord u now)
        if strTruthy token then igLoop u now rest acc2 lastErr
        else (acc2, false, lastErr, rest)

/-- app/parser_instagram.py fetch_instagram_videos: runs the pagination loop
and returns ([v for v in out if v.video_url], pagination_failed, last_error). -/
def fetch_instagram_videos (username : String) (now : Int)
    (script : List IgFetchOutcome) : List IgRecord × Bool × Option String :=
  let r := igLoop username now script [] none
  (r.1.filter (fun v => strTruthy v.video_url), r.2.1, r.2.2.1)

end Insta

namespace Targets

/-- A tracked Instagram account row from the accounts sheet. -/
structure IgAccount where
  username : String
  amount : Int
deriving DecidableEq, Repr

/-- A YouTube channel row from the channels sheet. -/
structure Channel where
  channel_id : String
  amount : Int
deriving DecidableEq, Repr

/-- A TikTok profile row from the profiles sheet. -/
structure TtProfile where
  user_id : String
  username : String
  amount : Int
deriving DecidableEq, Repr

/-- parse_all's filter preparation: a falsy (absent or empty) only_accounts
list becomes None, otherwise the set of casefolded identifiers. -/
def prepare_filter : Option (List String) → Option (List String)
  | none => none
  | some l => if l.isEmpty then none else some (l.map pyCasefold)

/-- _process_instagram_list target resolution: with a filter, the accounts
whose casefolded username lies in it; otherwise the full list. -/
def ig_effective (accounts : List IgAccount) (only : Option (List String)) :
    List IgAccount :=
  match only with
  | some f => accounts.filter (fun a => f.contains (pyCasefold a.username))
  | none => accounts

/-- The accounts the Instagram per-account loop actually runs over: the loop
body has no amount guard, so every effective account is processed. -/
def ig_processed (accounts : List IgAccount) (rawFilter : Option (List String)) :
    List IgAccount :=
  ig_effective accounts (prepare_filter rawFilter)

/-- _process_youtube_list target resolution. -/
def yt_effective (channels : List Channel) (only : Option (List String)) :
    List Channel :=
  match only with
  | some f => channels.filter (fun c => f.contains (pyCasefold c.channel_id))
  | none => channels

/-- The channels the YouTube loop actually processes: the loop skips any
channel with int(amount or 0) <= 0 via continue, filter or not. -/
def yt_processed (channels : List Channel) (rawFilter : Option (List String)) :
    List Channel :=
  (yt_effective channels (prepare_filter rawFilter)).filter
    (fun c => !(decide (c.amount ≤ 0)))

/-- _process_tiktok_list target resolution. -/
def tt_effective (profiles : List TtProfile) (only : Option (List String)) :
    List TtProfile :=
  match only with
  | some f => profiles.filter (fun p => f.contains (pyCasefold p.user_id))
  | none => profiles

/-- The profiles the TikTok loop actually processes: the loop skips any
profile with int(amount or 0) <= 0 via continue, filter or not. -/
def tt_processed (profiles : List TtProfile) (rawFilter : Option (List String)) :
    List TtProfile :=
  (tt_effective profiles (prepare_filter rawFilter)).filter
    (fun p => !(decide (p.amount ≤ 0)))

end Targets

namespace Store

/-- A concrete first write of one Instagram reel. -/
def sampleRow1 : VideoRow :=
  { platform := "instagram", account := "acc", video_id := "vid1",
    video_url := "https://www.instagram.com/reel/vid1/", publish_date := 20000,
    iso_year := 2024, week := 40, likes := 10, views := 100, comments := 3,
    caption := "first", client_tag := some "#x", company := some "C1",
    product := none, created_at := 0, updated_at := 0 }

/-- The same reel on a later run: natural keys unchanged, counters moved. -/
def sampleRow2 : VideoRow :=
  { sampleRow1 with
    views := 250, likes := 12, comments := 4,
    caption := "second", client_tag := none, company := none }

/-- The row the claim predicts after writing sampleRow1 then sampleRow2. -/
def sampleMerged : VideoRow :=
  { sampleRow1 with
    account := sampleRow2.account,
    video_url := sampleRow2.video_url, likes := sampleRow2.likes,
    views := sampleRow2.views, comments := sampleRow2.comments,
    caption := sampleRow2.caption, client_tag := sampleRow2.client_tag,
    company := sampleRow2.company, product := sampleRow2.product,
    created_at := 1, updated_at := 2 }

/-- As sampleMerged but for the YouTube writer, whose SET list omits
video_url. -/
def sampleMergedYt : VideoRow :=
  { sampleRow1 with
    account := sampleRow2.account,
    likes := sampleRow2.likes, views := sampleRow2.views,
    comments := sampleRow2.comments, caption := sampleRow2.caption,
    client_tag := sampleRow2.client_tag, company := sampleRow2.company,
    product := sampleRow2.product, created_at := 1, updated_at := 2 }

end Store

namespace Sheets

/-- A concrete cache state holding one previously loaded dataset. -/
def sampleCache : SheetCache Nat :=
  ⟨fun k => if k = "accounts" then some [5] else none, fun _ => 0⟩

end Sheets

namespace Tiktok

/-- A concrete single TikTok page with one video and no further pages. -/
def samplePage : TtData Nat :=
  ⟨some [7], none, false, none⟩

/-- A page fetch whose first attempt is an HTTP 404 and whose second attempt
succeeds. -/
def script404ThenOk : List (List (Except Retry.UpErr (TtData Nat))) :=
  [[Except.error (Retry.UpErr.httpStatus 404), Except.ok samplePage]]

/-- A page fetch answering HTTP 404 on every attempt. -/
def script404Always : List (List (Except Retry.UpErr (TtData Nat))) :=
  [[Except.error (Retry.UpErr.httpStatus 404),
    Except.error (Retry.UpErr.httpStatus 404),
    Except.error (Retry.UpErr.httpStatus 404)]]

/-- A page fetch answering HTTP 403 on every attempt. -/
def script403Always : List (List (Except Retry.UpErr (TtData Nat))) :=
  [[Except.error (Retry.UpErr.httpStatus 403),
    Except.error (Retry.UpErr.httpStatus 403),
    Except.error (Retry.UpErr.httpStatus 403)]]

end Tiktok

namespace Insta

/-- A concrete raw reel with a permalink. -/
def itemX : IgRawItem :=
  { taken_at := some 1700000000,
    caption := .dict (some "hello #x") none none, caption_text := none,
    permalink := some "https://www.instagram.com/reel/X1/", code := none,
    shortcode := none, itemId := some "X", pk := none, like_count := some 5,
    play_count := some 100, view_count := none, comment_count := some 2 }

/-- The record the pipeline builds for itemX under account user at epoch 0. -/
def recX : IgRecord :=
  igBuildRecord "user" 0 itemX

/-- A raw item carrying neither a permalink nor a shortcode. -/
def bareItem : IgRawItem :=
  { taken_at := some 1, caption := .absent, caption_text := none,
    permalink := none, code := none, shortcode := none, itemId := some "B",
    pk := none, like_count := none, play_count := none, view_count := none,
    comment_count := none }

end Insta

/-! ## Theorems -/

/-- Status string discrimination for the run record. -/
theorem statusIffAux (n : Nat) :
    ((if n = 0 then "success" else "partial") : String) = "success" ↔ n = 0 := by
  split_ifs with h
  · simp [h]
  · constructor
    · intro hs
      exact absurd hs (by decide)
    · intro h0
      exact absurd h0 h

/-- C2: the persisted run record has status success iff the total failure
count is zero; a platform coroutine that raises is caught as one failure
under that platform while the surviving platforms' counts are still summed:
an Instagram exception with YouTube and TikTok succeeding with 2 and 3 new
videos yields status partial, new_videos 5, and a failure entry only under
instagram. -/
theorem run_status_success_iff_no_failures :
    (∀ ig yt tt : Orch.POutcome,
        (Orch.parse_all_aggregate ig yt tt).status = "success"
          ↔ (Orch.parse_all_aggregate ig yt tt).errors = 0)
    ∧ ∀ (m : String) (a b : Nat),
        Orch.parse_all_aggregate (.exn m) (.ok a 2 []) (.ok b 3 [])
          = { status := "partial", total_accounts := a + b, new_videos := 5,
              errors := 1, failed := [("instagram", [[("error", m)]])] } := by
  constructor
  · intro ig yt tt
    exact statusIffAux _
  · intro m a b
    simp [Orch.parse_all_aggregate, Orch.outcomeContribution]

/-- Appending a row with a fresh conflict key inserts it. -/
theorem upsertVideo_fresh (key : Store.VideoRow → String)
    (update : Store.VideoRow → Store.VideoRow → Nat → Store.VideoRow)
    (r : Store.VideoRow) (now : Nat) (tbl : List Store.VideoRow)
    (h : ∀ x ∈ tbl, ¬ key x = key r) :
    Store.upsertVideo key update r now tbl
      = tbl ++ [{ r with created_at := now, updated_at := now }] := by
  unfold Store.upsertVideo
  have hany : tbl.any (fun x => key x == key r) = false := by
    rw [List.any_eq_false]
    intro x hx
    simpa using h x hx
  simp [hany]

/-- Upserting into a table whose only key match is its last row updates that
row in place. -/
theorem upsertVideo_conflict (key : Store.VideoRow → String)
    (update : Store.VideoRow → Store.VideoRow → Nat → Store.VideoRow)
    (r2 : Store.VideoRow) (now2 : Nat) (tbl : List Store.VideoRow)
    (row : Store.VideoRow) (hrow : key row = key r2)
    (htbl : ∀ x ∈ tbl, ¬ key x = key r2) :
    Store.upsertVideo key update r2 now2 (tbl ++ [row])
      = tbl ++ [update row r2 now2] := by
  unfold Store.upsertVideo
  have hany : (tbl ++ [row]).any (fun x => key x == key r2) = true := by
    rw [List.any_eq_true]
    exact ⟨row, by simp, by simp [hrow]⟩
  simp only [hany, if_true, List.map_append]
  congr 1
  · rw [List.map_congr_left, List.map_id]
    intro x hx
    simp [htbl x hx]
  · simp [hrow]

/-- C1: writing the same video twice through one platform writer with the
platform's natural key unchanged (video_id for Instagram and TikTok,
video_url for YouTube) leaves exactly one row for that key, carrying the
second write's counters, caption and classification, the second write's
updated timestamp, and the first write's identity fields (platform, key,
publish date, ISO year/week, created timestamp). -/
theorem upsert_roundtrip :
    (∀ (r1 r2 : Store.VideoRow) (n1 n2 : Nat) (tbl : List Store.VideoRow),
      r2.video_id = r1.video_id →
      (∀ x ∈ tbl, ¬ x.video_id = r1.video_id) →
      Store.upsert_instagram r2 n2 (Store.upsert_instagram r1 n1 tbl)
        = tbl ++ [{ r1 with
            account := r2.account, video_url := r2.video_url,
            likes := r2.likes, views := r2.views, comments := r2.comments,
            caption := r2.caption, client_tag := r2.client_tag,
            company := r2.company, product := r2.product,
            created_at := n1, updated_at := n2 }])
    ∧ (∀ (r1 r2 : Store.VideoRow) (n1 n2 : Nat) (tbl : List Store.VideoRow),
      r2.video_id = r1.video_id →
      (∀ x ∈ tbl, ¬ x.video_id = r1.video_id) →
      Store.upsert_tiktok r2 n2 (Store.upsert_tiktok r1 n1 tbl)
        = tbl ++ [{ r1 with
            account := r2.account, video_url := r2.video_url,
            likes := r2.likes, views := r2.views, comments := r2.comments,
            caption := r2.caption, client_tag := r2.client_tag,
            company := r2.company, product := r2.product,
            created_at := n1, updated_at := n2 }])
    ∧ (∀ (r1 r2 : Store.VideoRow) (n1 n2 : Nat) (tbl : List Store.VideoRow),
      r2.video_url = r1.video_url →
      (∀ x ∈ tbl, ¬ x.video_url = r1.video_url) →
      Store.upsert_youtube r2 n2 (Store.upsert_youtube r1 n1 tbl)
        = tbl ++ [{ r1 with
            account := r2.account,
            likes := r2.likes, views := r2.views, comments := r2.comments,
            caption := r2.caption, client_tag := r2.client_tag,
            company := r2.company, product := r2.product,
            created_at := n1, updated_at := n2 }]) := by
  refine ⟨?_, ?_, ?_⟩
  · intro r1 r2 n1 n2 tbl hk htbl
    unfold Store.upsert_instagram
    rw [upsertVideo_fresh (fun x => x.video_id) Store.igConflictUpdate r1 n1 tbl
      (by intro x hx; exact htbl x hx)]
    rw [upsertVideo_conflict (fun x => x.video_id) Store.igConflictUpdate r2 n2 tbl
      { r1 with created_at := n1, updated_at := n1 } (by simp [hk])
      (by intro x hx; simp only []; rw [hk]; exact htbl x hx)]
    rfl
  · intro r1 r2 n1 n2 tbl hk htbl
    unfold Store.upsert_tiktok
    rw [upsertVideo_fresh (fun x => x.video_id) Store.tiktokConflictUpdate r1 n1 tbl
      (by intro x hx; exact htbl x hx)]
    rw [upsertVideo_conflict (fun x => x.video_id) Store.tiktokConflictUpdate r2 n2 tbl
      { r1 with created_at := n1, updated_at := n1 } (by simp [hk])
      (by intro x hx; simp only []; rw [hk]; exact htbl x hx)]
    rfl
  · intro r1 r2 n1 n2 tbl hk htbl
    unfold Store.upsert_youtube
    rw [upsertVideo_fresh (fun x => x.video_url) Store.ytConflictUpdate r1 n1 tbl
      (by intro x hx; exact htbl x hx)]
    rw [upsertVideo_conflict (fun x => x.video_url) Store.ytConflictUpdate r2 n2 tbl
      { r1 with created_at := n1, updated_at := n1 } (by simp [hk])
      (by intro x hx; simp only []; rw [hk]; exact htbl x hx)]
    rfl

/-- C1 witness: the double write evaluated on a concrete reel. -/
theorem upsert_roundtrip_witness :
    Store.upsert_instagram Store.sampleRow2 2
        (Store.upsert_instagram Store.sampleRow1 1 [])
      = [Store.sampleMerged]
    ∧ Store.upsert_tiktok Store.sampleRow2 2
        (Store.upsert_tiktok Store.sampleRow1 1 [])
      = [Store.sampleMerged]
    ∧ Store.upsert_youtube Store.sampleRow2 2
        (Store.upsert_youtube Store.sampleRow1 1 [])
      = [Store.sampleMergedYt] := by
  refine ⟨?_, ?_, ?_⟩
  · exact upsert_roundtrip.1 Store.sampleRow1 Store.sampleRow2 1 2 []
      rfl (by intro x hx; simp at hx)
  · exact upsert_roundtrip.2.1 Store.sampleRow1 Store.sampleRow2 1 2 []
      rfl (by intro x hx; simp at hx)
  · exact upsert_roundtrip.2.2 Store.sampleRow1 Store.sampleRow2 1 2 []
      rfl (by intro x hx; simp at hx)

/-- C4: a refresh fetch that fails entirely leaves the cache state untouched
and hands the caller the previously cached contents, with no exception
escaping (the model is a total function); only a first load with no prior
entry yields the empty sequence. Quantified over force and the clock, so it
covers both the stale-refresh and the forced-refresh path. -/
theorem cache_refresh_failure (α : Type) (key : String) (err : String)
    (mapper : Sheets.Row → Option (Sheets.MapRes α)) (st : Sheets.SheetCache α)
    (now : Nat) (force : Bool) :
    (∀ prev, st.cache key = some prev →
      Sheets.get_cached_or_fetch key true (Except.error err) mapper st now force
        = (prev, st))
    ∧ (st.cache key = none →
      Sheets.get_cached_or_fetch key true (Except.error err) mapper st now force
        = ([], st)) := by
  have hload : Sheets.load_generic key true (Except.error err) mapper st now
      = ([], st) := rfl
  constructor
  · intro prev hprev
    simp [Sheets.get_cached_or_fetch, hload, hprev]
  · intro hnone
    simp [Sheets.get_cached_or_fetch, hload, hnone]

/-- C4 witness: a concrete populated cache survives a failed forced refresh
and is returned; a concrete empty key yields the empty list. -/
theorem cache_refresh_failure_witness :
    Sheets.get_cached_or_fetch "accounts" true (Except.error "boom")
        (fun _ => none) Sheets.sampleCache 100 true
      = ([5], Sheets.sampleCache)
    ∧ Sheets.get_cached_or_fetch "tags" true (Except.error "boom")
        (fun _ => none) Sheets.sampleCache 100 true
      = ([], Sheets.sampleCache) := by
  constructor
  · exact (cache_refresh_failure Nat "accounts" "boom" (fun _ => none)
      Sheets.sampleCache 100 true).1 [5] rfl
  · exact (cache_refresh_failure Nat "tags" "boom" (fun _ => none)
      Sheets.sampleCache 100 true).2 rfl

/-- A string built from an empty character list is the empty string. -/
theorem string_mk_eq_empty (l : List Char) (h : String.mk l = "") : l = [] := by
  have h2 := congrArg String.data h
  simpa using h2

/-- Lowercasing preserves non-emptiness. -/
theorem pyLowerStr_ne_empty (s : String) (h : ¬ s = "") : ¬ pyLowerStr s = "" := by
  intro contra
  apply h
  cases s with
  | mk data =>
    have hnil : data.map pyLower = [] := string_mk_eq_empty _ contra
    have hdata : data = [] := by
      cases data
      · rfl
      · simp at hnil
    rw [hdata]

/-- _map_account always attaches the casefolded username as dedup key, and
only maps rows with a non-empty username. -/
theorem map_account_key (r : Sheets.Row) (mr : Sheets.MapRes Sheets.Account)
    (h : Sheets.map_account r = some mr) :
    mr.dedupKey = some (pyCasefold mr.item.username)
      ∧ ¬ mr.item.username = "" := by
  unfold Sheets.map_account at h
  dsimp only at h
  split at h
  · exact absurd h (by simp)
  · rename_i hne
    have h3 := Option.some.inj h
    subst h3
    exact ⟨rfl, hne⟩

/-- The dedup loop of _load_generic computes exactly the keep-first
deduplication of the mapped items, for any mapper that keys every item. -/
theorem dedupLoop_eq_keepFirstBy (mapper : Sheets.Row → Option (Sheets.MapRes α))
    (keyOf : α → String)
    (hm : ∀ r mr, mapper r = some mr →
      mr.dedupKey = some (keyOf mr.item) ∧ ¬ keyOf mr.item = "") :
    ∀ (rows : List Sheets.Row) (seen : List String),
      Sheets.dedupLoop mapper rows seen
        = Sheets.keepFirstBy keyOf
            (rows.filterMap (fun r => (mapper r).map (fun mr => mr.item))) seen := by
  intro rows
  induction rows with
  | nil => intro seen; rfl
  | cons r rest ih =>
    intro seen
    rw [List.filterMap_cons]
    cases hmr : mapper r with
    | none =>
      simp only [hmr, Option.map_none']
      unfold Sheets.dedupLoop
      rw [hmr]
      exact ih seen
    | some mr =>
      obtain ⟨hkey, hne⟩ := hm r mr hmr
      simp only [hmr, Option.map_some']
      unfold Sheets.dedupLoop
      rw [hmr]
      dsimp only
      rw [hkey]
      simp only [hne, if_false, Sheets.keepFirstBy]
      split
      · exact ih seen
      · rw [ih (keyOf mr.item :: seen)]

/-- Every item of the dedup loop's output satisfies any property the mapper
guarantees. -/
theorem dedupLoop_forall (mapper : Sheets.Row → Option (Sheets.MapRes α))
    (P : α → Prop) (hm : ∀ r mr, mapper r = some mr → P mr.item) :
    ∀ (rows : List Sheets.Row) (seen : List String) (x : α),
      x ∈ Sheets.dedupLoop mapper rows seen → P x := by
  intro rows
  induction rows with
  | nil =>
    intro seen x hx
    simp [Sheets.dedupLoop] at hx
  | cons r rest ih =>
    intro seen x hx
    unfold Sheets.dedupLoop at hx
    cases hmr : mapper r with
    | none =>
      rw [hmr] at hx
      exact ih seen x hx
    | some mr =>
      rw [hmr] at hx
      dsimp only at hx
      cases hd : mr.dedupKey with
      | none =>
        rw [hd] at hx
        rcases List.mem_cons.mp hx with h1 | h2
        · rw [h1]; exact hm r mr hmr
        · exact ih seen x h2
      | some k =>
        rw [hd] at hx
        dsimp only at hx
        by_cases hke : k = ""
        · rw [if_pos hke] at hx
          rcases List.mem_cons.mp hx with h1 | h2
          · rw [h1]; exact hm r mr hmr
          · exact ih seen x h2
        · rw [if_neg hke] at hx
          by_cases hks : k ∈ seen
          · rw [if_pos hks] at hx
            exact ih seen x hx
          · rw [if_neg hks] at hx
            rcases List.mem_cons.mp hx with h1 | h2
            · rw [h1]; exact hm r mr hmr
            · exact ih (k :: seen) x h2

/-- The dedup keys of the loop output are pairwise distinct and disjoint
from the already-seen set. -/
theorem dedupLoop_keys_nodup (mapper : Sheets.Row → Option (Sheets.MapRes α))
    (keyOf : α → String)
    (hm : ∀ r mr, mapper r = some mr →
      mr.dedupKey = some (keyOf mr.item) ∧ ¬ keyOf mr.item = "") :
    ∀ (rows : List Sheets.Row) (seen : List String),
      ((Sheets.dedupLoop mapper rows seen).map keyOf).Nodup
        ∧ ∀ k ∈ (Sheets.dedupLoop mapper rows seen).map keyOf, k ∉ seen := by
  intro rows
  induction rows with
  | nil =>
    intro seen
    constructor
    · simp [Sheets.dedupLoop]
    · intro k hk
      simp [Sheets.dedupLoop] at hk
  | cons r rest ih =>
    intro seen
    unfold Sheets.dedupLoop
    cases hmr : mapper r with
    | none => exact ih seen
    | some mr =>
      obtain ⟨hkey, hne⟩ := hm r mr hmr
      dsimp only
      rw [hkey]
      simp only [hne, if_false]
      by_cases hks : keyOf mr.item ∈ seen
      · rw [if_pos hks]
        exact ih seen
      · rw [if_neg hks]
        have ihk := ih (keyOf mr.item :: seen)
        constructor
        · rw [List.map_cons]
          refine List.nodup_cons.mpr ⟨?_, ihk.1⟩
          intro hmem
          exact (ihk.2 _ hmem) (List.mem_cons_self _ _)
        · intro k hk
          rcases List.mem_cons.mp hk with h1 | h2
          · rw [h1]; exact hks
          · intro hkseen
            exact (ihk.2 k h2) (List.mem_cons_of_mem _ hkseen)

/-- C5: rows with a blank identifier never reach the cached accounts dataset;
within one load the output is exactly the keep-first deduplication of the
mapped rows by casefolded username, so casefolded identifiers are pairwise
distinct; loading the rows with ids A then a and amounts 5 then 9 yields the
single record with username A and amount 5. -/
theorem reference_dedup_keep_first :
    (∀ rows : List Sheets.Row,
      Sheets.loadAccounts rows
        = Sheets.keepFirstBy (fun a => pyCasefold a.username)
            ((rows.map Sheets.normalizeRowKeys).filterMap
              (fun r => (Sheets.map_account r).map (fun mr => mr.item))) [])
    ∧ (∀ rows : List Sheets.Row,
      ((Sheets.loadAccounts rows).map (fun a => pyCasefold a.username)).Nodup)
    ∧ (∀ rows : List Sheets.Row,
      (Sheets.loadAccounts rows).all (fun a => !(a.username == "")) = true)
    ∧ Sheets.loadAccounts
        [[("username", "A"), ("amount", "5")], [("username", "a"), ("amount", "9")]]
      = [⟨"A", 5⟩] := by
  have hm : ∀ r mr, Sheets.map_account r = some mr →
      mr.dedupKey = some (pyCasefold mr.item.username)
        ∧ ¬ pyCasefold mr.item.username = "" := by
    intro r mr h
    obtain ⟨h1, h2⟩ := map_account_key r mr h
    exact ⟨h1, pyLowerStr_ne_empty _ h2⟩
  refine ⟨?_, ?_, ?_, ?_⟩
  · intro rows
    exact dedupLoop_eq_keepFirstBy Sheets.map_account
      (fun a => pyCasefold a.username) hm (rows.map Sheets.normalizeRowKeys) []
  · intro rows
    exact (dedupLoop_keys_nodup Sheets.map_account
      (fun a => pyCasefold a.username) hm (rows.map Sheets.normalizeRowKeys) []).1
  · intro rows
    rw [List.all_eq_true]
    intro a ha
    have := dedupLoop_forall Sheets.map_account (fun a => ¬ a.username = "")
      (fun r mr h => (map_account_key r mr h).2)
      (rows.map Sheets.normalizeRowKeys) [] a ha
    simpa using this
  · decide

/-- The match_tags loop collects exactly the matching rules, in order. -/
theorem matchLoop_eq (clean : String) (ts : List Tagging.TagRule) :
    Tagging.matchLoop clean ts =
      ((Tagging.matchingRules clean ts).map (fun t => "#" ++ Tagging.cleanTag t),
        (Tagging.matchingRules clean ts).filterMap
          (fun t => Tagging.optTruthy t.company),
        (Tagging.matchingRules clean ts).filterMap
          (fun t => Tagging.optTruthy t.product)) := by
  induction ts with
  | nil => rfl
  | cons t rest ih =>
    by_cases h1 : Tagging.cleanTag t = ""
    · have hp : (!(Tagging.cleanTag t == "")
          && Tagging.rule_matches clean (Tagging.cleanTag t)) = false := by
        simp [h1]
      simp only [Tagging.matchLoop, Tagging.matchingRules, List.filter_cons, hp,
        if_pos h1]
      simp only [Bool.false_eq_true, if_false]
      exact ih
    · by_cases h2 : Tagging.rule_matches clean (Tagging.cleanTag t) = true
      · have hp : (!(Tagging.cleanTag t == "")
            && Tagging.rule_matches clean (Tagging.cleanTag t)) = true := by
          simp [h1, h2]
        simp only [Tagging.matchLoop, Tagging.matchingRules, List.filter_cons, hp,
          if_neg h1, if_pos h2, if_true]
        rw [ih]
        simp only [Prod.mk.injEq]
        refine ⟨rfl, ?_, ?_⟩
        · rw [List.filterMap_cons]
          cases hc : Tagging.optTruthy t.company <;> simp [hc, Tagging.matchingRules]
        · rw [List.filterMap_cons]
          cases hc : Tagging.optTruthy t.product <;> simp [hc, Tagging.matchingRules]
      · have hp : (!(Tagging.cleanTag t == "")
            && Tagging.rule_matches clean (Tagging.cleanTag t)) = false := by
          simp [h1]
          simpa using h2
        simp only [Tagging.matchLoop, Tagging.matchingRules, List.filter_cons, hp,
          if_neg h1, if_neg h2]
        simp only [Bool.false_eq_true, if_false]
        exact ih

/-- C6: match_tags returns client_tag as the comma-separated concatenation of
the number-sign-prefixed tags of all matching rules in ruleset order, and
company and product as the first matching rule's non-empty value
(first-match-wins): with two rules carrying tag x and companies C1 then C2,
a text containing x yields company C1. The Lean embedding is a pure function
of its arguments, mirroring that match_tags performs no I/O and leaves the
rule list unchanged. -/
theorem match_tags_first_match :
    (∀ (text : Option String) (rules : List Tagging.TagRule),
      Tagging.match_tags text rules
        = (if Tagging.matchingRules (Tagging.normalize_text text) rules = []
            then none
            else some (String.intercalate ", "
              ((Tagging.matchingRules (Tagging.normalize_text text) rules).map
                (fun t => "#" ++ Tagging.cleanTag t))),
          ((Tagging.matchingRules (Tagging.normalize_text text) rules).filterMap
            (fun t => Tagging.optTruthy t.company)).head?,
          ((Tagging.matchingRules (Tagging.normalize_text text) rules).filterMap
            (fun t => Tagging.optTruthy t.product)).head?,
          (Tagging.matchingRules (Tagging.normalize_text text) rules).map
            (fun t => "#" ++ Tagging.cleanTag t)))
    ∧ Tagging.match_tags (some "check x here")
        [⟨some "x", some "C1", none⟩, ⟨some "x", some "C2", none⟩]
      = (some "#x, #x", some "C1", none, ["#x", "#x"]) := by
  constructor
  · intro text rules
    unfold Tagging.match_tags
    dsimp only
    rw [matchLoop_eq]
    by_cases h : Tagging.matchingRules (Tagging.normalize_text text) rules = []
    · simp [h]
    · have hmap : (Tagging.matchingRules (Tagging.normalize_text text) rules).map
          (fun t => "#" ++ Tagging.cleanTag t) ≠ [] := by
        simpa using h
      simp [h, hmap]
  · decide

/-- C3 counterexample: a page fetch whose first attempt answers HTTP 404 and
whose second attempt succeeds. The retry decorator retries the 404 (its
predicate is exception-type-based), the second attempt's page is returned,
and the profile is not classified as not-found — contradicting the claim
that a 403/404 response is never retried and immediately classifies the
target as not-found. -/
theorem permanent_status_retried_counterexample :
    Tiktok.fetch_tiktok_videos 20 Tiktok.script404ThenOk = ([7], false)
    ∧ ¬ (Tiktok.fetch_tiktok_videos 20 Tiktok.script404ThenOk).2 = true := by
  constructor
  · decide
  · decide

/-- C3 amended: the retry predicate is exception-type-based, so transient
failures (429/5xx, connection, timeout) and HTTP 403/404 responses alike are
retried, with the attempt count bounded at 3 and the final error re-raised;
only after the budget is exhausted does the TikTok client classify a final
404 as not-found, while a final 403 ends pagination without the not-found
mark. -/
theorem retry_policy_amended :
    (∀ s : Nat, Retry.is_retryable (Retry.UpErr.httpStatus s) = true)
    ∧ Retry.is_retryable Retry.UpErr.connErr = true
    ∧ Retry.is_retryable Retry.UpErr.timeoutErr = true
    ∧ (∀ m : String, Retry.is_retryable (Retry.UpErr.otherErr m) = false)
    ∧ (∀ (α : Type) (e1 e2 e3 : Retry.UpErr) (rest : List (Except Retry.UpErr α)),
        Retry.is_retryable e1 = true → Retry.is_retryable e2 = true →
        Retry.api_retry
            (Except.error e1 :: Except.error e2 :: Except.error e3 :: rest)
          = Except.error e3)
    ∧ Tiktok.fetch_tiktok_videos 20 Tiktok.script404Always = ([], true)
    ∧ Tiktok.fetch_tiktok_videos 20 Tiktok.script403Always = ([], false) := by
  refine ⟨fun s => rfl, rfl, rfl, fun m => rfl, ?_, by decide, by decide⟩
  intro α e1 e2 e3 rest he1 he2
  simp [Retry.api_retry, Retry.retry_call, he1, he2]

/-- C3 witness: the bounded-attempt conjunct evaluated on a concrete script
of a connection error, a timeout, then an HTTP 500: the third error is
re-raised. -/
theorem retry_policy_amended_witness :
    (Retry.api_retry
        [Except.error Retry.UpErr.connErr, Except.error Retry.UpErr.timeoutErr,
          Except.error (Retry.UpErr.httpStatus 500)]
      : Except Retry.UpErr Nat) = Except.error (Retry.UpErr.httpStatus 500) := by
  exact retry_policy_amended.2.2.2.2.1 Nat Retry.UpErr.connErr
    Retry.UpErr.timeoutErr (Retry.UpErr.httpStatus 500) [] rfl rfl

/-- C7: a page answering a non-empty pagination token with zero items is
re-fetched exactly once; when the retry returns the page with item X, the
final result contains the record of X exactly once; when the retry is empty
too, the loop has consumed exactly the two fetches and stops treating the
stream as ended, leaving any remaining script untouched. -/
theorem instagram_glitch_retry :
    Insta.fetch_instagram_videos "user" 0
        [Insta.IgFetchOutcome.ok (some "T") [],
          Insta.IgFetchOutcome.ok (some "T2") [Insta.itemX],
          Insta.IgFetchOutcome.ok none []]
      = ([Insta.recX], false, none)
    ∧ (Insta.fetch_instagram_videos "user" 0
        [Insta.IgFetchOutcome.ok (some "T") [],
          Insta.IgFetchOutcome.ok (some "T2") [Insta.itemX],
          Insta.IgFetchOutcome.ok none []]).1.count Insta.recX = 1
    ∧ (∀ rest : List Insta.IgFetchOutcome,
        Insta.igLoop "user" 0
          (Insta.IgFetchOutcome.ok (some "T") []
            :: Insta.IgFetchOutcome.ok (some "T3") [] :: rest) [] none
          = ([], false, none, rest)) := by
  refine ⟨by decide, by decide, ?_⟩
  intro rest
  rfl

/-- C9: fetch_instagram_videos returns the (records, paginationFailed,
lastErrorReason) triple; whenever a page fetch errors out after the retry
budget, the loop stops with paginationFailed true and a non-null reason while
keeping every record gathered before the failure point, and the function
returns those records. -/
theorem instagram_pagination_failure :
    (∀ (u : String) (now : Int) (reason : String)
        (rest : List Insta.IgFetchOutcome) (acc : List Insta.IgRecord)
        (lastErr : Option String),
      Insta.igLoop u now (Insta.IgFetchOutcome.fail reason :: rest) acc lastErr
        = (acc, true, some reason, rest))
    ∧ Insta.fetch_instagram_videos "user" 0
        [Insta.IgFetchOutcome.ok (some "T") [Insta.itemX],
          Insta.IgFetchOutcome.fail "boom"]
      = ([Insta.recX], true, some "boom") := by
  constructor
  · intro u now reason rest acc lastErr
    rfl
  · decide

/-- C10: every record fetch_instagram_videos returns has a non-empty
video_url; a raw item with neither a permalink nor a shortcode is appended
to the internal out list during pagination (length 1 below) yet excluded
from the returned records by the final filter. -/
theorem instagram_records_have_url :
    (∀ (u : String) (now : Int) (script : List Insta.IgFetchOutcome),
      (Insta.fetch_instagram_videos u now script).1.all
        (fun r => strTruthy r.video_url) = true)
    ∧ Insta.fetch_instagram_videos "user" 0
        [Insta.IgFetchOutcome.ok none [Insta.bareItem]]
      = ([], false, none)
    ∧ (Insta.igLoop "user" 0
        [Insta.IgFetchOutcome.ok none [Insta.bareItem]] [] none).1.length = 1 := by
  refine ⟨?_, by decide, by decide⟩
  intro u now script
  unfold Insta.fetch_instagram_videos
  dsimp only
  rw [List.all_eq_true]
  intro r hr
  exact (List.mem_filter.mp hr).2

/-- C8 counterexample: with no filter supplied, the Instagram processor does
not skip an account whose configured amount is 0 — the claim predicts the
amount-zero target is skipped on all three platforms. -/
theorem instagram_amount_skip_counterexample :
    Targets.ig_processed [⟨"acc1", 0⟩] none = [⟨"acc1", 0⟩]
    ∧ ¬ (∀ a ∈ Targets.ig_processed [⟨"acc1", 0⟩] none, 0 < a.amount) := by
  constructor
  · rfl
  · intro h
    have := h ⟨"acc1", 0⟩ (by decide)
    exact absurd this (by decide)

/-- C8 amended: with a filter, each platform's effective list is the
case-folded intersection of the filter with the reference list, amounts
preserved from the reference data (the claim's own example included);
without a filter the full list is used, YouTube and TikTok skip targets with
amount at most 0, and Instagram ignores the configured amount, processing
every effective account. -/
theorem target_selection_amended :
    (∀ (accounts : List Targets.IgAccount) (f : List String), ¬ f = [] →
      Targets.ig_effective accounts (Targets.prepare_filter (some f))
        = accounts.filter
            (fun a => (f.map pyCasefold).contains (pyCasefold a.username)))
    ∧ (∀ (channels : List Targets.Channel) (f : List String), ¬ f = [] →
      Targets.yt_effective channels (Targets.prepare_filter (some f))
        = channels.filter
            (fun c => (f.map pyCasefold).contains (pyCasefold c.channel_id)))
    ∧ (∀ (profiles : List Targets.TtProfile) (f : List String), ¬ f = [] →
      Targets.tt_effective profiles (Targets.prepare_filter (some f))
        = profiles.filter
            (fun p => (f.map pyCasefold).contains (pyCasefold p.user_id)))
    ∧ Targets.yt_processed [⟨"chan1", 10⟩, ⟨"chan2", 5⟩] (some ["chan1"])
        = [⟨"chan1", 10⟩]
    ∧ (∀ channels : List Targets.Channel,
        Targets.yt_processed channels none
          = channels.filter (fun c => !(decide (c.amount ≤ 0))))
    ∧ (∀ profiles : List Targets.TtProfile,
        Targets.tt_processed profiles none
          = profiles.filter (fun p => !(decide (p.amount ≤ 0))))
    ∧ (∀ accounts : List Targets.IgAccount,
        Targets.ig_processed accounts none = accounts) := by
  refine ⟨?_, ?_, ?_, by decide, fun channels => rfl, fun profiles => rfl,
    fun accounts => rfl⟩
  · intro accounts f hf
    cases f with
    | nil => exact absurd rfl hf
    | cons a as => rfl
  · intro channels f hf
    cases f with
    | nil => exact absurd rfl hf
    | cons a as => rfl
  · intro profiles f hf
    cases f with
    | nil => exact absurd rfl hf
    | cons a as => rfl

/-- C8 witness: the intersection conjunct evaluated on a concrete channel
list and an upper-case filter entry. -/
theorem target_selection_amended_witness :
    Targets.ig_effective [⟨"Acc1", 3⟩] (Targets.prepare_filter (some ["ACC1"]))
      = [⟨"Acc1", 3⟩] := by
  rw [target_selection_amended.1 [⟨"Acc1", 3⟩] ["ACC1"] (by decide)]
  decide

end ParserMass
